import Mathlib

/-!
Verification of the ThunderAc Streamlit business-planning assistant
(src/main.py) against its natural-language specification.

The core under verification is:
  * the response generator with provider fallback (get_ai_response),
  * the feedback controller (handle_feedback),
  * the conversation store and its clear operation,
  * the prompt-submission gate (st.chat_input with disabled flag).

External provider calls are modelled as oracle functions in a GenEnv
record; each call returns either a text (Except.ok) or a failure
description (Except.error), mirroring Python exceptions whose str()
is the description.  The generator additionally returns the trace of
outbound provider calls it performed, so that claims about which
provider was or was not called are provable.
-/

namespace ThunderAc

/-- One chat message as stored in st.session_state messages:
a dict with keys role and content. -/
structure Turn where
  role : String
  content : String
deriving DecidableEq, Repr

/-- A message in the primary (Gemini) provider shape
(types.Content with a role and a text part). -/
structure GContent where
  role : String
  text : String
deriving DecidableEq, Repr

/-- A message in the secondary (OpenAI) provider shape. -/
structure OAMessage where
  role : String
  content : String
deriving DecidableEq, Repr

/-- MODEL_MAPPING from src/main.py lines 12-15. -/
def MODEL_MAPPING : List (String × String) :=
  [("gemini-3-pro-preview", "gemini-3-pro-preview"),
   ("ChatGPT 5.2", "gpt-5.2-thinking")]

/-- AUTHORIZED_STUDENT_IDS from src/main.py line 17. -/
def AUTHORIZED_STUDENT_IDS : List String := ["Thunder"]

/-- Python dict access MODEL_MAPPING[model_selection]: returns the mapped
model id, or raises KeyError (whose str is the quoted key) when absent. -/
def lookupModel (model_selection : String) : Except String String :=
  match MODEL_MAPPING.lookup model_selection with
  | some modelId => Except.ok modelId
  | none => Except.error ("KeyError: \x27" ++ model_selection ++ "\x27")

/-- Python substring test: pat in s. -/
def strContains (s pat : String) : Bool :=
  decide (pat.toList <:+: s.toList)

/-- Translation of the chat history into the primary provider shape
(src/main.py lines 81-86): user-role turns keep role user, every other
role becomes model; content carried verbatim. -/
def gemini_contents (chat_history : List Turn) : List GContent :=
  chat_history.map (fun m => ⟨if m.role = "user" then "user" else "model", m.content⟩)

/-- Translation of one stored turn into the secondary provider shape
(src/main.py lines 111-113): role model becomes assistant, all other
roles pass through unchanged. -/
def oa_history (chat_history : List Turn) : List OAMessage :=
  chat_history.map (fun m => ⟨if m.role = "model" then "assistant" else m.role, m.content⟩)

/-- The full secondary-provider message list (src/main.py lines 110-113):
a system message holding the system instruction, then the translated
history. -/
def oa_messages (system_instruction_text : String) (chat_history : List Turn) :
    List OAMessage :=
  ⟨"system", system_instruction_text⟩ :: oa_history chat_history

/-- The two provider oracles: primary takes the resolved model id, the
translated contents and the system instruction; fallback takes the
OpenAI-shaped message list.  Except.error carries the failure
description (str of the raised exception). -/
structure GenEnv where
  primary : String → List GContent → String → Except String String
  fallback : List OAMessage → Except String String

/-- A record of one outbound provider call made by get_ai_response. -/
inductive ProviderCall where
  | primaryCall (model : String) (contents : List GContent) (system : String)
  | fallbackCall (messages : List OAMessage)
deriving DecidableEq, Repr

/-- The except-Exception handler of get_ai_response (src/main.py lines
98-126): on a failure description containing 502 or Bad Gateway, make
exactly one fallback call and return its text, or, when the fallback
fails too, the composed diagnostic; on any other description return the
Error: diagnostic with no fallback call. -/
def except_handler (env : GenEnv) (chat_history : List Turn)
    (system_instruction_text : String) (error_msg : String)
    (calls : List ProviderCall) : Except String (String × List ProviderCall) :=
  if strContains error_msg "502" || strContains error_msg "Bad Gateway" then
    match env.fallback (oa_messages system_instruction_text chat_history) with
    | Except.ok t =>
        Except.ok (t, calls ++ [ProviderCall.fallbackCall
          (oa_messages system_instruction_text chat_history)])
    | Except.error fallback_err =>
        Except.ok ("Both models failed. Gemini Error: " ++ error_msg ++
          " | OpenAI Error: " ++ fallback_err,
          calls ++ [ProviderCall.fallbackCall
            (oa_messages system_instruction_text chat_history)])
  else
    Except.ok ("Error: " ++ error_msg, calls)

/-- get_ai_response (src/main.py lines 77-126).  The result is
Except.ok (text, trace) when the routine returns a text, and
Except.error would mean an exception escaped its boundary (we prove it
never does).  The model lookup happens inside the try block, before the
primary call, so a lookup failure reaches the same handler with an
empty call trace. -/
def get_ai_response (env : GenEnv) (model_selection : String)
    (chat_history : List Turn) (system_instruction_text : String) :
    Except String (String × List ProviderCall) :=
  match lookupModel model_selection with
  | Except.error e =>
      except_handler env chat_history system_instruction_text e []
  | Except.ok modelId =>
      match env.primary modelId (gemini_contents chat_history) system_instruction_text with
      | Except.ok text =>
          Except.ok (text,
            [ProviderCall.primaryCall modelId (gemini_contents chat_history)
              system_instruction_text])
      | Except.error e =>
          except_handler env chat_history system_instruction_text e
            [ProviderCall.primaryCall modelId (gemini_contents chat_history)
              system_instruction_text]

/-- The text a caller of get_ai_response observes.  get_ai_response never
produces Except.error (proved below), so the default branch is dead. -/
def genText (env : GenEnv) (model_selection : String) (chat_history : List Turn)
    (system_instruction_text : String) : String :=
  match get_ai_response env model_selection chat_history system_instruction_text with
  | Except.ok r => r.fst
  | Except.error e => e

/-- One record written by save_to_firebase (src/main.py lines 54-74), in
the order the arguments are declared there: user_id, model_name,
prompt_, full_response, interaction_type. -/
structure LogCall where
  user_id : Option String
  model_name : String
  prompt_ : String
  full_response : String
  interaction_type : String
deriving DecidableEq, Repr

/-- save_to_firebase, modelled by the record it writes; the Firebase
path and timestamps are outside the model. -/
def save_to_firebase (user_id : Option String) (model_name prompt_
    full_response interaction_type : String) : LogCall :=
  ⟨user_id, model_name, prompt_, full_response, interaction_type⟩

/-- The per-session state (src/main.py lines 129-132). -/
structure SessionState where
  messages : List Turn
  feedback_pending : Bool
  authenticated : Bool
  current_user : Option String
deriving DecidableEq, Repr

/-- Initial session state (src/main.py lines 129-132). -/
def initState : SessionState :=
  { messages := [], feedback_pending := false,
    authenticated := false, current_user := none }

/-- The Clear Chat button handler (src/main.py lines 188-191): one event
that empties the message list and resets the feedback flag before the
rerun, so observers (later script runs) see both updates together. -/
def clearChat (s : SessionState) : SessionState :=
  { s with messages := [], feedback_pending := false }

/-- handle_feedback (src/main.py lines 135-153), returning the new
session state and the list of save_to_firebase records in the order
they are written.  Precondition in the app: the feedback buttons are
only rendered while feedback_pending is true, so the message list holds
at least the judged prompt and reply; outside that precondition the
negative Python list indexes would raise, modelled here by empty
defaults. -/
def handle_feedback (env : GenEnv) (current_user : Option String)
    (selected_label system_instruction_input : String) (understood : Bool)
    (s : SessionState) : SessionState × List LogCall :=
  let interaction := if understood then "UNDERSTOOD_FEEDBACK" else "CLARIFICATION_REQUESTED"
  let last_user_prompt := ((s.messages.get? (s.messages.length - 2)).map Turn.content).getD ""
  let last_ai_reply := ((s.messages.get? (s.messages.length - 1)).map Turn.content).getD ""
  let log1 := save_to_firebase current_user selected_label last_ai_reply interaction
    "FEEDBACK_EVENT"
  if understood = false then
    let clarification_prompt := "I don\x27t understand the previous explanation: \x27" ++
      last_ai_reply ++ "\x27. Please break it down further."
    let messages1 := s.messages ++ [⟨"user", clarification_prompt⟩]
    let ai_reply := genText env selected_label messages1 system_instruction_input
    let log2 := save_to_firebase current_user selected_label clarification_prompt ai_reply
      "CLARIFICATION_RESPONSE"
    ({ s with messages := messages1 ++ [⟨"assistant", ai_reply⟩], feedback_pending := true },
     [log1, log2])
  else
    let _ := last_user_prompt
    ({ s with feedback_pending := false }, [log1])

/-- st.chat_input (src/main.py line 236): while feedback is pending the
input is disabled and yields nothing; otherwise it yields whatever the
user submitted this run (none when nothing was submitted). -/
def chat_input_result (s : SessionState) (typed : Option String) : Option String :=
  if s.feedback_pending then none else typed

/-- The prompt-submission handler (src/main.py lines 238-268): guarded
by the truthiness of the chat_input value, it appends the user turn,
obtains the reply, logs an INITIAL_QUERY record, appends the assistant
turn and sets the feedback flag. -/
def submit_prompt (env : GenEnv) (current_user : Option String)
    (selected_label system_instruction_input : String)
    (s : SessionState) (typed : Option String) : SessionState × List LogCall :=
  match chat_input_result s typed with
  | none => (s, [])
  | some prompt =>
    if prompt = "" then (s, [])
    else
      let messages1 := s.messages ++ [⟨"user", prompt⟩]
      let reply := genText env selected_label messages1 system_instruction_input
      let log := save_to_firebase current_user selected_label prompt reply "INITIAL_QUERY"
      ({ s with messages := messages1 ++ [⟨"assistant", reply⟩], feedback_pending := true },
       [log])

/-- One user-visible event of the session shell.  The submit, feedback
and clear events are only offered while authenticated; feedback buttons
are only rendered while the feedback flag is pending; the model label
and the system instruction can vary per run through the developer
settings. -/
inductive Step : SessionState → SessionState → Prop where
  | login {s : SessionState} (u : String) (hs : s.authenticated = false)
      (hu : u ∈ AUTHORIZED_STUDENT_IDS) :
      Step s { s with authenticated := true, current_user := some u }
  | logout {s : SessionState} (hs : s.authenticated = true) :
      Step s initState
  | submit {s : SessionState} (env : GenEnv)
      (selected_label system_instruction_input : String) (typed : Option String)
      (hs : s.authenticated = true) :
      Step s (submit_prompt env s.current_user selected_label
        system_instruction_input s typed).fst
  | feedback {s : SessionState} (env : GenEnv)
      (selected_label system_instruction_input : String) (understood : Bool)
      (hs : s.authenticated = true) (hp : s.feedback_pending = true) :
      Step s (handle_feedback env s.current_user selected_label
        system_instruction_input understood s).fst
  | clearEvt {s : SessionState} (hs : s.authenticated = true) :
      Step s (clearChat s)

/-- The reachable session states: the fresh session and everything the
shell events produce from it. -/
inductive Reachable : SessionState → Prop where
  | init : Reachable initState
  | step {s s' : SessionState} : Reachable s → Step s s' → Reachable s'

/-! Theorems about the embedded program. -/

/-- The except handler always returns a text, no matter the failure
description, the fallback behaviour or the accumulated trace. -/
theorem except_handler_ok (env : GenEnv) (chat_history : List Turn)
    (system_instruction_text error_msg : String) (calls : List ProviderCall) :
    ∃ r, except_handler env chat_history system_instruction_text error_msg calls
      = Except.ok r := by
  unfold except_handler
  split
  · split <;> exact ⟨_, rfl⟩
  · exact ⟨_, rfl⟩

/-- Claim C3: for every history and every model label in the fixed
mapping, if the primary provider call succeeds then get_ai_response
returns the primary provider text verbatim, and the call trace is the
single primary call: the secondary provider is not called. -/
theorem claim_C3_primary_success (env : GenEnv) (label system mid t : String)
    (h : List Turn)
    (hm : lookupModel label = Except.ok mid)
    (hp : env.primary mid (gemini_contents h) system = Except.ok t) :
    ∃ calls, get_ai_response env label h system = Except.ok (t, calls) ∧
      calls = [ProviderCall.primaryCall mid (gemini_contents h) system] ∧
      ∀ msgs, ProviderCall.fallbackCall msgs ∉ calls := by
  refine ⟨[ProviderCall.primaryCall mid (gemini_contents h) system], ?_, rfl, ?_⟩
  · unfold get_ai_response
    rw [hm]
    dsimp only
    rw [hp]
  · intro msgs hmem
    simp at hmem

def envC3 : GenEnv :=
  ⟨fun _ _ _ => Except.ok "primary-text", fun _ => Except.ok "fallback-text"⟩

/-- Witness for C3 at a concrete environment and history. -/
theorem claim_C3_primary_success_witness :
    ∃ calls, get_ai_response envC3 "gemini-3-pro-preview"
        [⟨"user", "hello"⟩] "Business Planning Assistant"
      = Except.ok ("primary-text", calls) ∧
      calls = [ProviderCall.primaryCall "gemini-3-pro-preview"
        (gemini_contents [⟨"user", "hello"⟩]) "Business Planning Assistant"] ∧
      ∀ msgs, ProviderCall.fallbackCall msgs ∉ calls :=
  claim_C3_primary_success envC3 "gemini-3-pro-preview"
    "Business Planning Assistant" "gemini-3-pro-preview" "primary-text"
    [⟨"user", "hello"⟩] rfl rfl

/-- Claim C4: if the primary provider fails with a description
containing 502 or Bad Gateway and the secondary provider succeeds,
get_ai_response returns exactly the secondary provider text. -/
theorem claim_C4_fallback_success (env : GenEnv) (label system mid e t : String)
    (h : List Turn)
    (hm : lookupModel label = Except.ok mid)
    (hp : env.primary mid (gemini_contents h) system = Except.error e)
    (h502 : strContains e "502" = true ∨ strContains e "Bad Gateway" = true)
    (hf : env.fallback (oa_messages system h) = Except.ok t) :
    get_ai_response env label h system
      = Except.ok (t, [ProviderCall.primaryCall mid (gemini_contents h) system,
          ProviderCall.fallbackCall (oa_messages system h)]) := by
  have hb : (strContains e "502" || strContains e "Bad Gateway") = true := by
    rcases h502 with h1 | h1 <;> simp [h1]
  unfold get_ai_response
  rw [hm]
  dsimp only
  rw [hp]
  dsimp only
  unfold except_handler
  rw [hb, if_pos rfl, hf]
  rfl

def envC4 : GenEnv :=
  ⟨fun _ _ _ => Except.error "502 Bad Gateway", fun _ => Except.ok "fallback-text"⟩

/-- Witness for C4 at a concrete environment and history. -/
theorem claim_C4_fallback_success_witness :
    get_ai_response envC4 "gemini-3-pro-preview" [⟨"user", "hello"⟩] "sys"
      = Except.ok ("fallback-text",
          [ProviderCall.primaryCall "gemini-3-pro-preview"
            (gemini_contents [⟨"user", "hello"⟩]) "sys",
           ProviderCall.fallbackCall (oa_messages "sys" [⟨"user", "hello"⟩])]) :=
  claim_C4_fallback_success envC4 "gemini-3-pro-preview" "sys"
    "gemini-3-pro-preview" "502 Bad Gateway" "fallback-text" [⟨"user", "hello"⟩]
    rfl rfl (Or.inl (by decide)) rfl

/-- Claim C5: if the primary provider fails with an unavailability-class
description and the secondary provider also fails, get_ai_response
returns (never raises) a text containing both failure descriptions,
the primary description before the fallback description. -/
theorem claim_C5_both_fail (env : GenEnv) (label system mid e1 e2 : String)
    (h : List Turn)
    (hm : lookupModel label = Except.ok mid)
    (hp : env.primary mid (gemini_contents h) system = Except.error e1)
    (h502 : strContains e1 "502" = true ∨ strContains e1 "Bad Gateway" = true)
    (hf : env.fallback (oa_messages system h) = Except.error e2) :
    ∃ txt, get_ai_response env label h system
        = Except.ok (txt, [ProviderCall.primaryCall mid (gemini_contents h) system,
            ProviderCall.fallbackCall (oa_messages system h)]) ∧
      ∃ p q r, txt = p ++ e1 ++ q ++ e2 ++ r := by
  have hb : (strContains e1 "502" || strContains e1 "Bad Gateway") = true := by
    rcases h502 with h1 | h1 <;> simp [h1]
  refine ⟨"Both models failed. Gemini Error: " ++ e1 ++ " | OpenAI Error: " ++ e2,
    ?_, "Both models failed. Gemini Error: ", " | OpenAI Error: ", "", ?_⟩
  · unfold get_ai_response
    rw [hm]
    dsimp only
    rw [hp]
    dsimp only
    unfold except_handler
    rw [hb, if_pos rfl, hf]
    rfl
  · rw [String.append_empty]

def envC5 : GenEnv :=
  ⟨fun _ _ _ => Except.error "502 Server Error", fun _ => Except.error "openai down"⟩

/-- Witness for C5 at a concrete environment and history. -/
theorem claim_C5_both_fail_witness :
    ∃ txt, get_ai_response envC5 "ChatGPT 5.2" [⟨"user", "hello"⟩] "sys"
        = Except.ok (txt, [ProviderCall.primaryCall "gpt-5.2-thinking"
            (gemini_contents [⟨"user", "hello"⟩]) "sys",
            ProviderCall.fallbackCall (oa_messages "sys" [⟨"user", "hello"⟩])]) ∧
      ∃ p q r, txt = p ++ "502 Server Error" ++ q ++ "openai down" ++ r :=
  claim_C5_both_fail envC5 "ChatGPT 5.2" "sys" "gpt-5.2-thinking"
    "502 Server Error" "openai down" [⟨"user", "hello"⟩]
    rfl rfl (Or.inl (by decide)) rfl

/-- Claim C6: if the primary provider fails with a description
containing neither 502 nor Bad Gateway, get_ai_response returns a text
containing that description, and the call trace holds only the primary
call: no fallback attempt is made. -/
theorem claim_C6_no_fallback (env : GenEnv) (label system mid e : String)
    (h : List Turn)
    (hm : lookupModel label = Except.ok mid)
    (hp : env.primary mid (gemini_contents h) system = Except.error e)
    (h1 : strContains e "502" = false)
    (h2 : strContains e "Bad Gateway" = false) :
    ∃ txt calls, get_ai_response env label h system = Except.ok (txt, calls) ∧
      (∃ p q, txt = p ++ e ++ q) ∧
      calls = [ProviderCall.primaryCall mid (gemini_contents h) system] ∧
      ∀ msgs, ProviderCall.fallbackCall msgs ∉ calls := by
  have hb : (strContains e "502" || strContains e "Bad Gateway") = false := by
    simp [h1, h2]
  refine ⟨"Error: " ++ e,
    [ProviderCall.primaryCall mid (gemini_contents h) system], ?_,
    ⟨"Error: ", "", by rw [String.append_empty]⟩, rfl, ?_⟩
  · unfold get_ai_response
    rw [hm]
    dsimp only
    rw [hp]
    dsimp only
    unfold except_handler
    rw [hb, if_neg (by simp)]
  · intro msgs hmem
    simp at hmem

def envC6 : GenEnv :=
  ⟨fun _ _ _ => Except.error "429 rate limit exceeded", fun _ => Except.ok "fallback-text"⟩

/-- Witness for C6 at a concrete environment and history. -/
theorem claim_C6_no_fallback_witness :
    ∃ txt calls, get_ai_response envC6 "gemini-3-pro-preview"
        [⟨"user", "hello"⟩] "sys" = Except.ok (txt, calls) ∧
      (∃ p q, txt = p ++ "429 rate limit exceeded" ++ q) ∧
      calls = [ProviderCall.primaryCall "gemini-3-pro-preview"
        (gemini_contents [⟨"user", "hello"⟩]) "sys"] ∧
      ∀ msgs, ProviderCall.fallbackCall msgs ∉ calls :=
  claim_C6_no_fallback envC6 "gemini-3-pro-preview" "sys" "gemini-3-pro-preview"
    "429 rate limit exceeded" [⟨"user", "hello"⟩] rfl rfl (by decide) (by decide)

/-- Claim C7: for every environment, model label, history and system
instruction, get_ai_response never lets an exception escape: it always
returns a text (with its call trace). -/
theorem claim_C7_never_raises (env : GenEnv) (label : String) (h : List Turn)
    (system : String) :
    ∃ r, get_ai_response env label h system = Except.ok r := by
  unfold get_ai_response
  split
  · exact except_handler_ok env h system _ []
  · split
    · exact ⟨_, rfl⟩
    · exact except_handler_ok env h system _ _

def envC1 : GenEnv :=
  ⟨fun _ _ _ => Except.ok "clarified text", fun _ => Except.ok "fallback-text"⟩

def stateC1 : SessionState :=
  ⟨[⟨"user", "What is a break-even point?"⟩,
    ⟨"assistant", "It is where revenue equals cost."⟩], true, true, some "Thunder"⟩

/-- Claim C1, evaluated on the code: resolving feedback with
understood = true on a pending two-turn state flips the flag to open
and writes exactly one log record — but that record carries
FEEDBACK_EVENT in its interaction_type field, while the string
UNDERSTOOD_FEEDBACK lands in the full_response field (src/main.py line
140 passes the kind as the fourth argument of save_to_firebase and the
literal FEEDBACK_EVENT as the fifth). -/
theorem claim_C1_log_kind_eval :
    (handle_feedback envC1 (some "Thunder") "gemini-3-pro-preview"
        "Business Planning Assistant" true stateC1).fst.feedback_pending = false
    ∧ (handle_feedback envC1 (some "Thunder") "gemini-3-pro-preview"
        "Business Planning Assistant" true stateC1).fst.messages = stateC1.messages
    ∧ (handle_feedback envC1 (some "Thunder") "gemini-3-pro-preview"
        "Business Planning Assistant" true stateC1).snd
      = [⟨some "Thunder", "gemini-3-pro-preview", "It is where revenue equals cost.",
          "UNDERSTOOD_FEEDBACK", "FEEDBACK_EVENT"⟩]
    ∧ ((handle_feedback envC1 (some "Thunder") "gemini-3-pro-preview"
        "Business Planning Assistant" true stateC1).snd.map LogCall.interaction_type)
      = ["FEEDBACK_EVENT"] :=
  ⟨rfl, rfl, rfl, rfl⟩

def envC2 : GenEnv :=
  ⟨fun _ _ _ => Except.ok "clarified text", fun _ => Except.ok "fallback-text"⟩

def stateC2 : SessionState :=
  ⟨[⟨"user", "What is a break-even point?"⟩,
    ⟨"assistant", "It is where revenue equals cost."⟩], true, true, some "Thunder"⟩

/-- Claim C2, evaluated on the code: resolving feedback with
understood = false on a pending two-turn state leaves the flag pending
and appends exactly two turns (a user clarification request then an
assistant reply), and writes exactly two log records in order — but
the first record carries FEEDBACK_EVENT in its interaction_type field
(CLARIFICATION_REQUESTED lands in its full_response field); only the
second carries CLARIFICATION_RESPONSE as claimed. -/
theorem claim_C2_log_kind_eval :
    (handle_feedback envC2 (some "Thunder") "gemini-3-pro-preview"
        "Business Planning Assistant" false stateC2).fst.feedback_pending = true
    ∧ ((handle_feedback envC2 (some "Thunder") "gemini-3-pro-preview"
        "Business Planning Assistant" false stateC2).fst.messages.map Turn.role)
      = ["user", "assistant", "user", "assistant"]
    ∧ ((handle_feedback envC2 (some "Thunder") "gemini-3-pro-preview"
        "Business Planning Assistant" false stateC2).fst.messages.take 2)
      = stateC2.messages
    ∧ ((handle_feedback envC2 (some "Thunder") "gemini-3-pro-preview"
        "Business Planning Assistant" false stateC2).snd.map LogCall.interaction_type)
      = ["FEEDBACK_EVENT", "CLARIFICATION_RESPONSE"]
    ∧ ((handle_feedback envC2 (some "Thunder") "gemini-3-pro-preview"
        "Business Planning Assistant" false stateC2).snd.map LogCall.full_response)
      = ["CLARIFICATION_REQUESTED", "clarified text"] :=
  ⟨rfl, rfl, rfl, rfl, rfl⟩

/-- Claim C8: for every session state, after the Clear Chat handler the
conversation store is empty and the feedback flag is open; the handler
is a single event of the single-threaded session script, so both
updates become observable together at the following rerun. -/
theorem claim_C8_clear_atomic (s : SessionState) :
    (clearChat s).messages = [] ∧ (clearChat s).feedback_pending = false :=
  ⟨rfl, rfl⟩

/-- Claim C9: while feedback is pending the chat input is disabled, so
a prompt submission is a no-op: the session state (in particular the
conversation store) is unchanged and nothing is logged. -/
theorem claim_C9_pending_blocks (env : GenEnv) (current_user : Option String)
    (selected_label system_instruction_input : String) (s : SessionState)
    (typed : Option String) (hp : s.feedback_pending = true) :
    submit_prompt env current_user selected_label system_instruction_input s typed
      = (s, []) := by
  unfold submit_prompt chat_input_result
  rw [hp]
  simp

def envC9 : GenEnv :=
  ⟨fun _ _ _ => Except.ok "reply", fun _ => Except.ok "fallback-text"⟩

def stateC9 : SessionState :=
  ⟨[⟨"user", "q"⟩, ⟨"assistant", "a"⟩], true, true, some "Thunder"⟩

/-- Witness for C9 at a concrete pending state and typed prompt. -/
theorem claim_C9_pending_blocks_witness :
    submit_prompt envC9 (some "Thunder") "gemini-3-pro-preview"
      "Business Planning Assistant" stateC9 (some "hello") = (stateC9, []) :=
  claim_C9_pending_blocks envC9 (some "Thunder") "gemini-3-pro-preview"
    "Business Planning Assistant" stateC9 (some "hello") rfl

/-- Every turn in the list is user-tagged or assistant-tagged. -/
def rolesOK (l : List Turn) : Prop :=
  ∀ m ∈ l, m.role = "user" ∨ m.role = "assistant"

theorem rolesOK_append {l1 l2 : List Turn} (h1 : rolesOK l1) (h2 : rolesOK l2) :
    rolesOK (l1 ++ l2) := by
  intro m hm
  rcases List.mem_append.mp hm with h | h
  · exact h1 m h
  · exact h2 m h

theorem rolesOK_user (c : String) : rolesOK [⟨"user", c⟩] := by
  intro m hm
  rw [List.mem_singleton] at hm
  rw [hm]
  exact Or.inl rfl

theorem rolesOK_assistant (c : String) : rolesOK [⟨"assistant", c⟩] := by
  intro m hm
  rw [List.mem_singleton] at hm
  rw [hm]
  exact Or.inr rfl

/-- On understood feedback the conversation store is unchanged. -/
theorem handle_feedback_true_messages (env : GenEnv) (cu : Option String)
    (sel sys : String) (s : SessionState) :
    (handle_feedback env cu sel sys true s).fst.messages = s.messages := rfl

/-- On negative feedback the handler appends a user turn then an
assistant turn. -/
theorem handle_feedback_false_messages (env : GenEnv) (cu : Option String)
    (sel sys : String) (s : SessionState) :
    ∃ u a : String, (handle_feedback env cu sel sys false s).fst.messages
      = (s.messages ++ [⟨"user", u⟩]) ++ [⟨"assistant", a⟩] :=
  ⟨_, _, rfl⟩

/-- The submission handler either leaves the store unchanged or appends
a user turn then an assistant turn. -/
theorem submit_prompt_messages (env : GenEnv) (cu : Option String)
    (sel sys : String) (s : SessionState) (typed : Option String) :
    (submit_prompt env cu sel sys s typed).fst.messages = s.messages ∨
    ∃ u a : String, (submit_prompt env cu sel sys s typed).fst.messages
      = (s.messages ++ [⟨"user", u⟩]) ++ [⟨"assistant", a⟩] := by
  unfold submit_prompt
  cases hc : chat_input_result s typed with
  | none => exact Or.inl rfl
  | some prompt =>
    dsimp only
    by_cases hp : prompt = ""
    · rw [if_pos hp]
      exact Or.inl rfl
    · rw [if_neg hp]
      exact Or.inr ⟨prompt, _, rfl⟩

/-- In every reachable session state every stored turn is user-tagged
or assistant-tagged. -/
theorem reachable_rolesOK {s : SessionState} (hr : Reachable s) :
    rolesOK s.messages := by
  induction hr with
  | init => intro m hm; simp [initState] at hm
  | step _ hstep ih =>
    cases hstep with
    | login u hs hu => exact ih
    | logout hs => intro m hm; simp [initState] at hm
    | submit env sel sys typed hs =>
      rcases submit_prompt_messages env _ sel sys _ typed with he | ⟨u, a, he⟩
      · rw [he]; exact ih
      · rw [he]
        exact rolesOK_append (rolesOK_append ih (rolesOK_user u)) (rolesOK_assistant a)
    | feedback env sel sys understood hs hp =>
      cases understood with
      | true =>
        rw [handle_feedback_true_messages]
        exact ih
      | false =>
        obtain ⟨u, a, he⟩ := handle_feedback_false_messages env _ sel sys _
        rw [he]
        exact rolesOK_append (rolesOK_append ih (rolesOK_user u)) (rolesOK_assistant a)
    | clearEvt hs => intro m hm; simp [clearChat] at hm

/-- On a role-clean history the secondary-provider translation never
fires its model-to-assistant remapping: it preserves every role. -/
theorem oa_history_of_rolesOK : ∀ l : List Turn, rolesOK l →
    oa_history l = l.map (fun m => ⟨m.role, m.content⟩)
  | [], _ => rfl
  | m :: tl, h => by
    have hm := h m (by simp)
    have htl : rolesOK tl := fun x hx => h x (by simp [hx])
    have hne : ¬ m.role = "model" := by
      rcases hm with h1 | h1 <;> rw [h1] <;> decide
    calc oa_history (m :: tl)
        = ⟨if m.role = "model" then "assistant" else m.role, m.content⟩ :: oa_history tl := rfl
      _ = ⟨m.role, m.content⟩ :: oa_history tl := by rw [if_neg hne]
      _ = ⟨m.role, m.content⟩ :: tl.map (fun m => ⟨m.role, m.content⟩) := by
            rw [oa_history_of_rolesOK tl htl]
      _ = (m :: tl).map (fun m => ⟨m.role, m.content⟩) := rfl

/-- Claim C10: in every reachable session state every stored turn has
role user or assistant (never model), so the secondary-provider
translation is the identity on roles for every history this program
produces. -/
theorem claim_C10_roles_invariant (s : SessionState) (hr : Reachable s) :
    (∀ m ∈ s.messages, m.role = "user" ∨ m.role = "assistant") ∧
    oa_history s.messages = s.messages.map (fun m => ⟨m.role, m.content⟩) :=
  ⟨reachable_rolesOK hr, oa_history_of_rolesOK _ (reachable_rolesOK hr)⟩

def envC10 : GenEnv :=
  ⟨fun _ _ _ => Except.ok "A break-even point is where revenue equals cost.",
   fun _ => Except.ok "fallback-text"⟩

def loginStateC10 : SessionState :=
  { initState with authenticated := true, current_user := some "Thunder" }

def stateC10 : SessionState :=
  (submit_prompt envC10 loginStateC10.current_user "gemini-3-pro-preview"
    "Business Planning Assistant" loginStateC10
    (some "What is a break-even point?")).fst

/-- Witness for C10 at a concrete reachable state: login as Thunder,
then submit one prompt answered by the primary provider. -/
theorem claim_C10_roles_invariant_witness :
    (∀ m ∈ stateC10.messages, m.role = "user" ∨ m.role = "assistant") ∧
    oa_history stateC10.messages
      = stateC10.messages.map (fun m => ⟨m.role, m.content⟩) :=
  claim_C10_roles_invariant stateC10
    (Reachable.step
      (Reachable.step Reachable.init
        (Step.login "Thunder" rfl (by decide)))
      (Step.submit envC10 "gemini-3-pro-preview" "Business Planning Assistant"
        (some "What is a break-even point?") rfl))

end ThunderAc
